import Mathlib

/-!
Verification development for the pixelated-portfolio repository.

The definitions below are a shallow embedding of the core state-handling
code of the site: the public comment stream (`CommentsSection`), the
authorization gate of the management surface (the `Admin` page), the
projects content repository (`ProjectsManager` / `ProjectForm`), and the
public article page (`ArticlePage`).

Modelling conventions:
* JavaScript strings that are processed character-wise (trimmed, split)
  are modelled as `List Char`; `jsTrim` and `splitComma` mirror
  `String.prototype.trim` and `split(',')` on ASCII input.  Opaque
  identifiers and field names stay `String`.
* React `useState` cells become fields of explicit state records, and
  each event handler becomes a state-transition function.
* Each supabase call is modelled by passing the store's response
  (`Except StoreError …`) into the transition function; the transition
  then reproduces exactly the branches of the handler's
  `try`/`catch`/`finally`.
-/

namespace Portfolio

/-- JS `String.prototype.trim` on a character sequence: drop whitespace
from both ends (the source only ever trims ASCII space around tokens). -/
def jsTrim (s : List Char) : List Char :=
  ((s.dropWhile Char.isWhitespace).reverse.dropWhile Char.isWhitespace).reverse

/-- JS `String.prototype.split(',')`: split a character sequence at every
comma; `"".split(',')` is `[""]`, and a trailing comma yields a trailing
empty token, as in JavaScript. -/
def splitComma : List Char → List (List Char)
  | [] => [[]]
  | c :: rest =>
    match splitComma rest with
    | [] => [[]]
    | t :: ts => if c = ',' then [] :: t :: ts else (c :: t) :: ts

/-- A store error as observed by a component handler (the handlers only
log it and toast; its payload is irrelevant to the state transitions). -/
structure StoreError where
  msg : String
  deriving DecidableEq

/-! ## Comment Stream (`CommentsSection`, `src/unnamed/part_002`) -/

/-- One comment row as selected by `fetchComments`
(`id, author_name, content, created_at`). -/
structure Comment where
  id : String
  author_name : String
  content : String
  created_at : String
  deriving DecidableEq

/-- `commentSchema.author_name`: `z.string().trim().min(2, …).max(50, …)`.
Zod applies the `trim` transform first and then checks the length of the
trimmed value; the first failing check produces the field's issue. -/
def authorNameError (s : List Char) : Option String :=
  let t := jsTrim s
  if t.length < 2 then some "Nome deve ter no minimo 2 caracteres"
  else if t.length > 50 then some "Nome muito longo"
  else none

/-- `commentSchema.content`: `z.string().trim().min(5, …).max(1000, …)`. -/
def contentError (s : List Char) : Option String :=
  let t := jsTrim s
  if t.length < 5 then some "Comentario deve ter no minimo 5 caracteres"
  else if t.length > 1000 then some "Comentario muito longo"
  else none

/-- The field-keyed error map built by `handleSubmit` from
`validation.error.errors` (`newErrors[err.path[0]] = err.message`): one
entry per failing field, in the schema's field order
(`author_name` first, then `content`). -/
def commentErrors (author content : List Char) : List (String × String) :=
  (match authorNameError author with
   | some m => [("author_name", m)]
   | none => []) ++
  (match contentError content with
   | some m => [("content", m)]
   | none => [])

/-- The row handed to `supabase.from('comments').insert` by `handleSubmit`:
`{ article_id: articleId, author_name: authorName.trim(), content: content.trim() }`. -/
structure CommentInsert where
  article_id : String
  author_name : List Char
  content : List Char
  deriving DecidableEq

/-- The `useState` cells of `CommentsSection` that `handleSubmit` reads or
writes: the comment cache, the two form fields, the error map and the
`submitting` flag. -/
structure CommentsState where
  comments : List Comment
  authorName : List Char
  content : List Char
  errors : List (String × String)
  submitting : Bool
  deriving DecidableEq

/-- `handleSubmit` of `CommentsSection` as one state transition.  It
returns the new component state together with the insert issued to the
store (`none` when validation failed before any store call).  `storeOk`
is the store's verdict on the insert.  The branches mirror the source:
`setErrors({})`, early return with `setErrors(newErrors)` on validation
failure; otherwise insert, clear the two fields on success, and reset
`submitting` in the `finally` block on both outcomes. -/
def handleSubmitStep (articleId : String) (s : CommentsState) (storeOk : Bool) :
    CommentsState × Option CommentInsert :=
  match commentErrors s.authorName s.content with
  | [] =>
    let record : CommentInsert :=
      { article_id := articleId
        author_name := jsTrim s.authorName
        content := jsTrim s.content }
    if storeOk then
      ({ s with errors := [], authorName := [], content := [], submitting := false },
       some record)
    else
      ({ s with errors := [], submitting := false }, some record)
  | errs => ({ s with errors := errs }, none)

/-- The realtime insert handler of the `CommentsSection` subscription:
`setComments(prev => [newComment, ...prev])` — an unconditional prepend. -/
def realtimeInsertHandler (newComment : Comment) (prev : List Comment) : List Comment :=
  newComment :: prev

/-- `fetchComments`: on a store error the `catch` branch only logs, so the
cache is untouched; on success the cache is replaced by `data || []`. -/
def fetchCommentsStep (cache : List Comment)
    (resp : Except StoreError (Option (List Comment))) : List Comment :=
  match resp with
  | Except.error _ => cache
  | Except.ok d => d.getD []

/-! ## Authorization gate (`Admin` page, `src/src/pages/Auth.tsx`) -/

/-- The authenticated identity as exposed by `useAuth` (`user`). -/
structure SessionUser where
  uid : String
  email : String
  deriving DecidableEq

/-- What `useAuth` hands to the `Admin` page: the loading flag, the
optional identity, and the administrator flag of the identity's profile
record — which the page reads but deliberately ignores (its own comment:
the `isAdmin` check was removed). -/
structure AuthSnapshot where
  loading : Bool
  user : Option SessionUser
  isAdmin : Bool
  deriving DecidableEq

/-- The redirect effect of `Admin`:
`useEffect(() => { if (!loading && !user) navigate('/auth') })`. -/
def adminRedirectsToAuth (s : AuthSnapshot) : Bool :=
  !s.loading && s.user.isNone

/-- The two render outcomes of `Admin`: the loading window, or the full
management panel (header, tabs, `ProjectsManager`, `ArticlesManager`). -/
inductive AdminView where
  | loadingView
  | managementPanel
  deriving DecidableEq

/-- The render function of `Admin`: `if (loading) return <Loading/>` and
otherwise the management panel — there is no early return for the
no-identity case. -/
def adminRender (s : AuthSnapshot) : AdminView :=
  if s.loading then AdminView.loadingView else AdminView.managementPanel

/-- Whether a rendered view mounts `ProjectsManager`.  The management
panel does (it is the active tab content), and `ProjectsManager`'s mount
effect `useEffect(() => { fetchProjects() }, [])` issues the projects
fetch as soon as it mounts (`ProjectsManager.tsx` lines 38–47). -/
def viewMountsProjectsManager : AdminView → Bool
  | AdminView.managementPanel => true
  | AdminView.loadingView => false

/-! ## Projects repository (`ProjectsManager.tsx`, `ProjectForm.tsx`) -/

/-- One projects row (`select('*')`). -/
structure Project where
  id : String
  title : String
  description : String
  technologies : List String
  icon : String
  demo_url : Option String
  repo_url : Option String
  sort_order : Int
  is_published : Bool
  created_at : String
  updated_at : String
  deriving DecidableEq

/-- `fetchProjects`: on a store error the `catch` branch toasts and the
cache is untouched; on success the cache is replaced by `data || []`. -/
def fetchProjectsStep (cache : List Project)
    (resp : Except StoreError (Option (List Project))) : List Project :=
  match resp with
  | Except.error _ => cache
  | Except.ok d => d.getD []

/-- `handleDelete(id)`: an early return when the interactive confirmation
is declined (no store call, cache untouched); otherwise issue the store
delete, and only on success run
`setProjects(projects.filter(p => p.id !== id))` — the `catch` branch
performs no local removal. -/
def handleDeleteStep (cache : List Project) (id : String) (confirmed : Bool)
    (resp : Except StoreError Unit) : List Project :=
  if confirmed then
    match resp with
    | Except.error _ => cache
    | Except.ok _ => cache.filter (fun p => p.id != id)
  else cache

/-- The technologies parser of `ProjectForm.handleSubmit`:
`formData.technologies.split(',').map(t => t.trim()).filter(t => t.length > 0)`. -/
def parseTechnologies (s : List Char) : List (List Char) :=
  ((splitComma s).map jsTrim).filter (fun t => decide (0 < t.length))

/-- The `technologies` check of `projectSchema`:
`z.array(z.string()).min(1, …)` — the parsed list must be non-empty. -/
def technologiesMinOk (l : List (List Char)) : Bool :=
  decide (1 ≤ l.length)

/-! ## Article page (`ArticlePage`, `src/unnamed/part_000`) -/

/-- One articles row as selected by `fetchArticle`, plus the
`is_published` column it filters on. -/
structure ArticleRow where
  id : String
  title : String
  excerpt : String
  content : Option String
  category : String
  read_time : String
  is_published : Bool
  created_at : String
  deriving DecidableEq

/-- The `fetchArticle` query:
`.eq('id', id).eq('is_published', true).maybeSingle()` over the articles
table — the first row matching both filters, or `none` when there is no
match (`maybeSingle` yields `null` for zero rows; `id` is the primary
key, so at most one row matches). -/
def fetchArticleQuery (table : List ArticleRow) (id : String) : Option ArticleRow :=
  (table.filter (fun a => a.id == id && a.is_published)).head?

/-- The render outcomes of `ArticlePage` once loading has finished. -/
inductive ArticleView where
  | notFound
  | articleView (a : ArticleRow)
  deriving DecidableEq

/-- The render branch of `ArticlePage` on the fetched result:
`if (!article) return <Erro 404 …/>`, otherwise the article view. -/
def articlePageView (result : Option ArticleRow) : ArticleView :=
  match result with
  | none => ArticleView.notFound
  | some a => ArticleView.articleView a

/-! ## Subscription lifecycle (`CommentsSection` effect) -/

/-- The configuration of the channel opened by the `CommentsSection`
effect: `postgres_changes` with `event: 'INSERT'`, `table: 'comments'`,
`filter: article_id=eq.<articleId>`. -/
structure ChannelSpec where
  event : String
  table : String
  filter : String
  deriving DecidableEq

/-- The channel the effect subscribes for a given article id. -/
def commentsChannel (articleId : String) : ChannelSpec :=
  { event := "INSERT"
    table := "comments"
    filter := "article_id=eq." ++ articleId }

/-- Channel lifecycle events: the effect body's `subscribe()` and the
cleanup's `supabase.removeChannel(channel)`. -/
inductive ChanEvent where
  | subscribeCh (spec : ChannelSpec)
  | removeCh
  deriving DecidableEq

/-- The channel-event trace of one `CommentsSection` instance whose
`articleId` dependency takes the values `ids` over its lifetime.  React
runs the effect body on mount, the cleanup followed by the body on each
dependency change, and the cleanup on unmount — so the trace is
`subscribe id₁, remove, subscribe id₂, remove, …, subscribe idₙ, remove`. -/
def effectTrace (ids : List String) : List ChanEvent :=
  ids.flatMap (fun i => [ChanEvent.subscribeCh (commentsChannel i), ChanEvent.removeCh])

/-- Whether a lifecycle event opens a channel. -/
def isSubscribeEvent : ChanEvent → Bool
  | ChanEvent.subscribeCh _ => true
  | ChanEvent.removeCh => false

/-- Net number of channels held open after a trace: subscriptions minus
releases. -/
def chanCount (tr : List ChanEvent) : Int :=
  (tr.countP isSubscribeEvent : Int) - (tr.countP (fun e => !isSubscribeEvent e) : Int)

/-- `l` is an initial segment of the trace `tr`. -/
def isPre (l tr : List ChanEvent) : Prop :=
  ∃ t, l ++ t = tr

/-! ## Sample values used by the witnesses -/

/-- A concrete comment row. -/
def cSample : Comment :=
  { id := "c1", author_name := "Ana", content := "Bom post!", created_at := "2026-01-01" }

/-- A concrete `CommentsSection` state whose form fields fail validation
(scenario B: `{author_name:"J", content:"Hi"}`). -/
def csInvalid : CommentsState :=
  { comments := [], authorName := "J".toList, content := "Hi".toList,
    errors := [], submitting := false }

/-- A concrete `CommentsSection` state whose form fields pass validation
(scenario A: `{author_name:"Jo", content:"Hello!"}`). -/
def csValid : CommentsState :=
  { comments := [cSample], authorName := "Jo".toList, content := "Hello!".toList,
    errors := [], submitting := false }

/-- A concrete identity. -/
def uSample : SessionUser :=
  { uid := "u1", email := "owner@site.dev" }

/-- A loaded snapshot with an identity whose profile is not an
administrator. -/
def snapNonAdminUser : AuthSnapshot :=
  { loading := false, user := some uSample, isAdmin := false }

/-- A loaded snapshot with no identity. -/
def snapNoUser : AuthSnapshot :=
  { loading := false, user := none, isAdmin := false }

/-- A concrete project row. -/
def pA : Project :=
  { id := "p-a", title := "A", description := "first", technologies := ["React"],
    icon := "x", demo_url := none, repo_url := none, sort_order := 0,
    is_published := true, created_at := "t0", updated_at := "t0" }

/-- A second concrete project row with a different id. -/
def pB : Project :=
  { id := "p-b", title := "B", description := "second", technologies := ["Vite"],
    icon := "y", demo_url := none, repo_url := none, sort_order := 1,
    is_published := true, created_at := "t1", updated_at := "t1" }

/-- A concrete unpublished article row. -/
def artUnpub : ArticleRow :=
  { id := "art-1", title := "Draft", excerpt := "E", content := none,
    category := "Geral", read_time := "5 min", is_published := false,
    created_at := "t0" }

/-! ## Theorems -/

/-- C1 counterexample: the live-merge handler does not deduplicate by
identifier.  Starting from an empty cache, a `fetchComments` response
that delivers `cSample` followed by a live insert event for the very same
comment id leaves the cache with two entries carrying that id — not
exactly one, as the claim states. -/
theorem live_merge_duplicate_id_cex :
    ((realtimeInsertHandler cSample
        (fetchCommentsStep [] (Except.ok (some [cSample])))).countP
      (fun x => x.id == cSample.id)) = 2 := by
  decide

/-- C1 (amended): the realtime insert handler prepends the delivered
comment to the cache unconditionally — it performs no presence check by
identifier — so the number of cache entries with the delivered id always
grows by one, and a redelivered id already in the cache ends up with at
least two entries. -/
theorem live_merge_prepends_unconditionally (c : Comment) (cache : List Comment) :
    realtimeInsertHandler c cache = c :: cache ∧
    ((realtimeInsertHandler c cache).countP (fun x => x.id == c.id)
      = cache.countP (fun x => x.id == c.id) + 1) ∧
    (1 ≤ cache.countP (fun x => x.id == c.id) →
      2 ≤ (realtimeInsertHandler c cache).countP (fun x => x.id == c.id)) := by
  refine ⟨rfl, ?_, ?_⟩
  · simp [realtimeInsertHandler, List.countP_cons]
  · intro h
    simp only [realtimeInsertHandler, List.countP_cons, beq_self_eq_true, if_pos]
    omega

/-- Witness for C1's amended theorem at a concrete duplicated cache. -/
theorem live_merge_prepends_unconditionally_w :
    2 ≤ (realtimeInsertHandler cSample [cSample]).countP (fun x => x.id == cSample.id) :=
  (live_merge_prepends_unconditionally cSample [cSample]).2.2 (by decide)

/-- C2 counterexample: on the loaded, no-identity snapshot the redirect
signal is emitted, but the render function still produces the management
panel, which mounts `ProjectsManager` and hence issues the projects
fetch — contradicting the claim's "no repository fetch occurs". -/
theorem gate_denied_still_fetches_cex :
    adminRedirectsToAuth snapNoUser = true ∧
    adminRender snapNoUser = AdminView.managementPanel ∧
    viewMountsProjectsManager (adminRender snapNoUser) = true := by
  decide

/-- C2 (amended): once the session has loaded, the gate emits the
redirect-to-sign-in signal exactly in the no-identity case and grants
every present identity access to the management panel, regardless of the
administrator flag (both the redirect and the render are insensitive to
`isAdmin`); however the denied case is not fetch-free — the render
function yields the management panel whenever loading is false, even
with no identity, so the panel's repository fetch is initiated before
the redirect takes effect. -/
theorem admin_gate_resolution (s : AuthSnapshot) (h : s.loading = false) :
    (s.user = none → adminRedirectsToAuth s = true) ∧
    (∀ u, s.user = some u → adminRedirectsToAuth s = false) ∧
    adminRender s = AdminView.managementPanel ∧
    (∀ s' : AuthSnapshot, s'.loading = false → s'.user = s.user →
      adminRedirectsToAuth s' = adminRedirectsToAuth s ∧
      adminRender s' = adminRender s) := by
  refine ⟨?_, ?_, ?_, ?_⟩
  · intro hu
    simp [adminRedirectsToAuth, h, hu]
  · intro u hu
    simp [adminRedirectsToAuth, h, hu]
  · simp [adminRender, h]
  · intro s' h' hu
    simp [adminRedirectsToAuth, adminRender, h, h', hu]

/-- Witness for C2's amended theorem: a non-administrator identity is
granted the panel and not redirected. -/
theorem admin_gate_resolution_w :
    adminRedirectsToAuth snapNonAdminUser = false ∧
    adminRender snapNonAdminUser = AdminView.managementPanel :=
  ⟨(admin_gate_resolution snapNonAdminUser rfl).2.1 uSample rfl,
   (admin_gate_resolution snapNonAdminUser rfl).2.2.1⟩

/-- C3: boundary behavior of the comment validator — a trimmed author
name of length exactly 2 or exactly 50 is accepted and length 1 or 51 is
rejected; trimmed content shorter than 5 or longer than 1000 is rejected
and every length in [5, 1000] is accepted. -/
theorem comment_validation_boundaries (author content : List Char) :
    ((jsTrim author).length = 2 ∨ (jsTrim author).length = 50 →
      authorNameError author = none) ∧
    ((jsTrim author).length = 1 ∨ (jsTrim author).length = 51 →
      authorNameError author ≠ none) ∧
    ((jsTrim content).length < 5 ∨ 1000 < (jsTrim content).length →
      contentError content ≠ none) ∧
    (5 ≤ (jsTrim content).length ∧ (jsTrim content).length ≤ 1000 →
      contentError content = none) := by
  refine ⟨?_, ?_, ?_, ?_⟩
  · rintro (h | h) <;> simp [authorNameError, h]
  · rintro (h | h) <;> simp [authorNameError, h]
  · rintro (h | h)
    · simp [contentError, h]
    · have h5 : ¬ (jsTrim content).length < 5 := by omega
      simp [contentError, h5, h]
  · rintro ⟨h1, h2⟩
    have h5 : ¬ (jsTrim content).length < 5 := by omega
    have h1000 : ¬ (jsTrim content).length > 1000 := by omega
    simp [contentError, h5, h1000]

/-- Witness for C3 at the boundary inputs of scenario A
(`author_name = "Jo"`, trimmed length 2; `content = "Hello!"`, length 6). -/
theorem comment_validation_boundaries_w :
    authorNameError "Jo".toList = none ∧ contentError "Hello!".toList = none :=
  ⟨(comment_validation_boundaries "Jo".toList "Hello!".toList).1 (Or.inl (by decide)),
   (comment_validation_boundaries "Jo".toList "Hello!".toList).2.2.2 (by decide)⟩

/-- C4: when the comment fields fail schema validation, `handleSubmit`
makes no store call and stores the field-keyed error map — which carries
an `author_name` entry exactly when the name check failed and a
`content` entry exactly when the content check failed; in particular
scenario B (`{author_name:"J", content:"Hi"}`) yields exactly two
validation errors. -/
theorem comment_submit_validation_blocks (articleId : String) (s : CommentsState)
    (ok : Bool) (h : commentErrors s.authorName s.content ≠ []) :
    (handleSubmitStep articleId s ok).2 = none ∧
    (handleSubmitStep articleId s ok).1.errors = commentErrors s.authorName s.content ∧
    ((∃ m, ("author_name", m) ∈ commentErrors s.authorName s.content) ↔
      authorNameError s.authorName ≠ none) ∧
    ((∃ m, ("content", m) ∈ commentErrors s.authorName s.content) ↔
      contentError s.content ≠ none) ∧
    (commentErrors "J".toList "Hi".toList).length = 2 := by
  refine ⟨?_, ?_, ?_, ?_, by decide⟩
  · rcases heq : commentErrors s.authorName s.content with _ | ⟨e, es⟩
    · exact absurd heq h
    · simp [handleSubmitStep, heq]
  · rcases heq : commentErrors s.authorName s.content with _ | ⟨e, es⟩
    · exact absurd heq h
    · simp [handleSubmitStep, heq]
  · rcases hA : authorNameError s.authorName with _ | mA <;>
      rcases hC : contentError s.content with _ | mC <;>
        simp [commentErrors, hA, hC]
  · rcases hA : authorNameError s.authorName with _ | mA <;>
      rcases hC : contentError s.content with _ | mC <;>
        simp [commentErrors, hA, hC]

/-- Witness for C4 at scenario B's inputs. -/
theorem comment_submit_validation_blocks_w :
    (handleSubmitStep "a1" csInvalid true).2 = none ∧
    (commentErrors "J".toList "Hi".toList).length = 2 :=
  ⟨(comment_submit_validation_blocks "a1" csInvalid true (by decide)).1,
   (comment_submit_validation_blocks "a1" csInvalid true (by decide)).2.2.2.2⟩

/-- C5: on a validly-filled form, `handleSubmit` issues the store insert
built from the trimmed fields, and — on both store outcomes — the
in-memory comment cache is left exactly as it was: the submit path never
adds a locally-constructed copy of the new comment. -/
theorem comment_submit_preserves_cache (articleId : String) (s : CommentsState)
    (ok : Bool) (h : commentErrors s.authorName s.content = []) :
    (handleSubmitStep articleId s ok).2 =
      some { article_id := articleId
             author_name := jsTrim s.authorName
             content := jsTrim s.content } ∧
    (handleSubmitStep articleId s ok).1.comments = s.comments := by
  cases ok <;> simp [handleSubmitStep, h]

/-- Witness for C5 at scenario A's inputs over a non-empty cache. -/
theorem comment_submit_preserves_cache_w :
    (handleSubmitStep "a1" csValid true).2 =
      some { article_id := "a1"
             author_name := jsTrim "Jo".toList
             content := jsTrim "Hello!".toList } ∧
    (handleSubmitStep "a1" csValid true).1.comments = [cSample] :=
  ⟨(comment_submit_preserves_cache "a1" csValid true (by decide)).1,
   (comment_submit_preserves_cache "a1" csValid true (by decide)).2⟩

/-- C6: store-failure atomicity of the projects repository — a failed
`fetchProjects` leaves the prior cache entirely intact, and a failed
`handleDelete` removes nothing from the local cache. -/
theorem store_failure_leaves_cache_intact (cache : List Project) (id : String)
    (e : StoreError) :
    fetchProjectsStep cache (Except.error e) = cache ∧
    handleDeleteStep cache id true (Except.error e) = cache :=
  ⟨rfl, rfl⟩

/-- C7: after a confirmed `handleDelete(id)` succeeds against the store,
the new cache is a pure subtraction of that id from the prior cache: no
entry with the deleted id remains, every other entry survives, nothing
new appears, and the relative order is preserved (the result is a
sublist of the prior cache) — all without any refetch. -/
theorem delete_success_is_pure_subtraction (cache : List Project) (id : String) :
    (handleDeleteStep cache id true (Except.ok ())).countP (fun p => p.id == id) = 0 ∧
    List.Sublist (handleDeleteStep cache id true (Except.ok ())) cache ∧
    (∀ p, p ∈ cache → p.id ≠ id → p ∈ handleDeleteStep cache id true (Except.ok ())) ∧
    (∀ p, p ∈ handleDeleteStep cache id true (Except.ok ()) → p ∈ cache ∧ p.id ≠ id) := by
  refine ⟨?_, ?_, ?_, ?_⟩
  · simp only [handleDeleteStep, if_pos, List.countP_eq_zero]
    intro p hp
    simp only [List.mem_filter, bne_iff_ne] at hp
    simp [hp.2]
  · simp only [handleDeleteStep, if_pos]
    exact List.filter_sublist cache
  · intro p hp hne
    simp [handleDeleteStep, List.mem_filter, hp, hne]
  · intro p hp
    simp only [handleDeleteStep, if_pos, List.mem_filter, bne_iff_ne] at hp
    exact hp

/-- Witness for C7: deleting `pA`'s id from `[pA, pB]` keeps `pB` and
leaves no entry with the deleted id. -/
theorem delete_success_is_pure_subtraction_w :
    pB ∈ handleDeleteStep [pA, pB] "p-a" true (Except.ok ()) ∧
    (handleDeleteStep [pA, pB] "p-a" true (Except.ok ())).countP
      (fun p => p.id == "p-a") = 0 :=
  ⟨(delete_success_is_pure_subtraction [pA, pB] "p-a").2.2.1 pB (by decide) (by decide),
   (delete_success_is_pure_subtraction [pA, pB] "p-a").1⟩

/-- C8: the technologies parser splits on commas, trims every token,
drops the empty tokens and keeps the order of the surviving tokens (the
result is a sublist of the trimmed split), and the project schema
rejects the draft exactly when the parsed list is empty; in particular
`"React, TypeScript, "` parses to `["React", "TypeScript"]`. -/
theorem technologies_parsing (s : List Char) :
    parseTechnologies "React, TypeScript, ".toList =
      ["React".toList, "TypeScript".toList] ∧
    (∀ t, t ∈ parseTechnologies s → 0 < t.length) ∧
    List.Sublist (parseTechnologies s) ((splitComma s).map jsTrim) ∧
    (technologiesMinOk (parseTechnologies s) = false ↔ parseTechnologies s = []) := by
  refine ⟨by decide, ?_, ?_, ?_⟩
  · intro t ht
    simp only [parseTechnologies, List.mem_filter, decide_eq_true_eq] at ht
    exact ht.2
  · exact List.filter_sublist _
  · simp only [technologiesMinOk, decide_eq_false_iff_not, not_le,
      Nat.lt_one_iff, List.length_eq_zero]

/-- Witness for C8: the concrete parse of scenario C, and the
positive-length fact for its first surviving token. -/
theorem technologies_parsing_w :
    0 < ("React".toList).length ∧
    parseTechnologies "React, TypeScript, ".toList =
      ["React".toList, "TypeScript".toList] :=
  ⟨(technologies_parsing "React, TypeScript, ".toList).2.1 "React".toList (by decide),
   (technologies_parsing "React, TypeScript, ".toList).1⟩

/-- Net channel count of a trace extended on the left by a subscribe. -/
theorem chanCount_cons_subscribeCh (spec : ChannelSpec) (tr : List ChanEvent) :
    chanCount (ChanEvent.subscribeCh spec :: tr) = chanCount tr + 1 := by
  simp [chanCount, List.countP_cons, isSubscribeEvent]
  ring

/-- Net channel count of a trace extended on the left by a release. -/
theorem chanCount_cons_removeCh (tr : List ChanEvent) :
    chanCount (ChanEvent.removeCh :: tr) = chanCount tr - 1 := by
  simp [chanCount, List.countP_cons, isSubscribeEvent]
  ring

/-- Case analysis of an initial segment of a cons trace. -/
theorem isPre_cons {l : List ChanEvent} {x : ChanEvent} {tr : List ChanEvent}
    (h : isPre l (x :: tr)) :
    l = [] ∨ ∃ l', l = x :: l' ∧ isPre l' tr := by
  obtain ⟨t, ht⟩ := h
  cases l with
  | nil => exact Or.inl rfl
  | cons a l' =>
    rw [List.cons_append] at ht
    injection ht with h1 h2
    exact Or.inr ⟨l', by rw [h1], ⟨t, h2⟩⟩

/-- The effect trace of a nonempty dependency history starts with one
subscribe/release pair. -/
theorem effectTrace_cons (i : String) (ids : List String) :
    effectTrace (i :: ids) =
      ChanEvent.subscribeCh (commentsChannel i) :: ChanEvent.removeCh ::
        effectTrace ids := by
  simp [effectTrace]

/-- Along every initial segment of an instance's effect trace, at most
one channel is open. -/
theorem chanCount_isPre_le_one :
    ∀ (ids : List String) (l : List ChanEvent),
      isPre l (effectTrace ids) → chanCount l ≤ 1 := by
  intro ids
  induction ids with
  | nil =>
    intro l hl
    obtain ⟨t, ht⟩ := hl
    have hnil : l = [] := (List.append_eq_nil.mp ht).1
    simp [hnil, chanCount]
  | cons i rest ih =>
    intro l hl
    rw [effectTrace_cons] at hl
    rcases isPre_cons hl with rfl | ⟨l1, rfl, h1⟩
    · simp [chanCount]
    · rcases isPre_cons h1 with rfl | ⟨l2, rfl, h2⟩
      · simp [chanCount, List.countP_cons, isSubscribeEvent]
      · have hrec := ih l2 h2
        rw [chanCount_cons_subscribeCh, chanCount_cons_removeCh]
        omega

/-- The effect trace ends with every channel released. -/
theorem chanCount_effectTrace_eq_zero :
    ∀ ids : List String, chanCount (effectTrace ids) = 0 := by
  intro ids
  induction ids with
  | nil => simp [effectTrace, chanCount]
  | cons i rest ih =>
    rw [effectTrace_cons, chanCount_cons_subscribeCh, chanCount_cons_removeCh, ih]
    omega

/-- C9: subscription lifecycle of a `CommentsSection` instance whose
`articleId` dependency takes the values `ids` — at every point of the
trace at most one channel is open, after the final teardown no channel
is left open, and every channel ever subscribed is the insert-scoped
comments channel for one of the instance's article ids. -/
theorem subscription_lifecycle (ids : List String) :
    (∀ l, isPre l (effectTrace ids) → chanCount l ≤ 1) ∧
    chanCount (effectTrace ids) = 0 ∧
    (∀ spec, ChanEvent.subscribeCh spec ∈ effectTrace ids →
      spec.event = "INSERT" ∧ spec.table = "comments" ∧
      ∃ i, i ∈ ids ∧ spec = commentsChannel i) := by
  refine ⟨chanCount_isPre_le_one ids, chanCount_effectTrace_eq_zero ids, ?_⟩
  intro spec hspec
  simp only [effectTrace, List.mem_flatMap, List.mem_cons,
    List.not_mem_nil, or_false] at hspec
  obtain ⟨i, hi, hcase⟩ := hspec
  rcases hcase with hcase | hcase
  · injection hcase with h1
    exact ⟨by rw [h1]; rfl, by rw [h1]; rfl, i, hi, h1⟩
  · cases hcase

/-- Witness for C9 on the one-article history `["a1"]`: the mid-trace
segment holding the open channel respects the bound, and the full trace
closes it. -/
theorem subscription_lifecycle_w :
    chanCount [ChanEvent.subscribeCh (commentsChannel "a1")] ≤ 1 ∧
    chanCount (effectTrace ["a1"]) = 0 :=
  ⟨(subscription_lifecycle ["a1"]).1
      [ChanEvent.subscribeCh (commentsChannel "a1")] ⟨[ChanEvent.removeCh], by decide⟩,
   (subscription_lifecycle ["a1"]).2.1⟩

/-- C10: the public article page never shows an unpublished article.  If
every row carrying the requested id is unpublished (which covers an
absent id), the `fetchArticle` query yields no row, the page resolves to
the not-found view, and that view coincides with the one produced when
the id's rows are entirely absent from the table. -/
theorem unpublished_article_not_found (table : List ArticleRow) (id : String)
    (h : ∀ row, row ∈ table → row.id = id → row.is_published = false) :
    fetchArticleQuery table id = none ∧
    articlePageView (fetchArticleQuery table id) = ArticleView.notFound ∧
    articlePageView (fetchArticleQuery table id) =
      articlePageView (fetchArticleQuery (table.filter (fun r => r.id != id)) id) := by
  have hnil : table.filter (fun a => a.id == id && a.is_published) = [] := by
    rw [List.filter_eq_nil_iff]
    intro a ha
    simp only [Bool.and_eq_true, beq_iff_eq, not_and]
    intro hid
    simp [h a ha hid]
  have habsent : (table.filter (fun r => r.id != id)).filter
      (fun a => a.id == id && a.is_published) = [] := by
    rw [List.filter_eq_nil_iff]
    intro a ha
    simp only [List.mem_filter, bne_iff_ne] at ha
    simp [ha.2]
  refine ⟨?_, ?_, ?_⟩
  · simp [fetchArticleQuery, hnil]
  · simp [articlePageView, fetchArticleQuery, hnil]
  · simp [articlePageView, fetchArticleQuery, hnil, habsent]

/-- Witness for C10 on a one-row table holding an unpublished draft. -/
theorem unpublished_article_not_found_w :
    fetchArticleQuery [artUnpub] "art-1" = none ∧
    articlePageView (fetchArticleQuery [artUnpub] "art-1") = ArticleView.notFound :=
  ⟨(unpublished_article_not_found [artUnpub] "art-1" (by decide)).1,
   (unpublished_article_not_found [artUnpub] "art-1" (by decide)).2.1⟩

end Portfolio
